import Mathlib

/-
Verification development for the Benchmarking-AI-Factories job lifecycle and
measurement orchestration core.  The definitions below are a shallow embedding
of the Python sources: Python dicts become association lists preserving
insertion order, exceptions become explicit Except values, and the external
world (scheduler queries, HTTP fetches, psutil readings) is passed in as
oracle functions.
-/

namespace AIF

/-- Model of the Python values stored in job records and metric mappings. -/
inductive Value where
  | str (s : String)
  | null
  | num (q : ℚ)
  | bool (b : Bool)
  | dict (l : List (String × Value))

/-- Python truthiness for the modelled values: None, empty strings, zero and
empty dicts are falsy. -/
def pythonTruthy : Value → Bool
  | Value.str s => s ≠ ""
  | Value.null => false
  | Value.num q => q ≠ 0
  | Value.bool b => b
  | Value.dict l => ¬ l.isEmpty

/-- Insertion-order-preserving key assignment, the embedding of a Python dict
assignment d[k] = v: replace the first binding of k in place, or append. -/
def setKey {α : Type} : List (String × α) → String → α → List (String × α)
  | [], k, v => [(k, v)]
  | (k1, v1) :: rest, k, v =>
    if k1 = k then (k, v) :: rest else (k1, v1) :: setKey rest k v

/-- Embedding of a Python del d[k]: drop the first binding of k. -/
def eraseKey {α : Type} : List (String × α) → String → List (String × α)
  | [], _ => []
  | (k1, v1) :: rest, k =>
    if k1 = k then rest else (k1, v1) :: eraseKey rest k

/-- Embedding of a Python dict update d.update(kwargs): assign each binding of
kwargs in order. -/
def dictUpdate {α : Type} (d : List (String × α)) (kwargs : List (String × α)) :
    List (String × α) :=
  kwargs.foldl (fun acc kv => setKey acc kv.1 kv.2) d

/-- A job record is a Python dict from field names to values. -/
abbrev Record := List (String × Value)

/-- The job database is a Python dict from job ids to records. -/
abbrev DB := List (String × Record)

namespace JobTracker

/-- The record built by JobTracker.add_job in src/common/job_tracker.py: the
status field is set to the string running at creation, and a falsy config is
replaced by an empty dict (the Python expression config or braces). -/
def mkJobRecord (job_id job_type service_name : String) (node : Value)
    (now : String) (config : Value) (parent_job : Value) : Record :=
  [("job_id", Value.str job_id),
   ("job_type", Value.str job_type),
   ("service_name", Value.str service_name),
   ("node", node),
   ("start_time", Value.str now),
   ("status", Value.str "running"),
   ("config", if pythonTruthy config then config else Value.dict []),
   ("parent_job", parent_job)]

/-- Embedding of JobTracker.add_job: load the db, assign the new record at the
job id, save.  The datetime.now() timestamp is the now argument. -/
def add_job (db : DB) (job_id job_type service_name : String) (node : Value)
    (now : String) (config : Value) (parent_job : Value) : DB :=
  setKey db job_id (mkJobRecord job_id job_type service_name node now config parent_job)

/-- Embedding of JobTracker.update_job: if the job id is present, merge the
kwargs into its record and save (second component true); otherwise print a
warning and do not save (second component false). -/
def update_job (db : DB) (job_id : String) (kwargs : Record) : DB × Bool :=
  match List.lookup job_id db with
  | some rec => (setKey db job_id (dictUpdate rec kwargs), true)
  | none => (db, false)

/-- Embedding of JobTracker.get_job: db.get(job_id). -/
def get_job (db : DB) (job_id : String) : Option Record :=
  List.lookup job_id db

/-- Embedding of JobTracker.remove_job: if the job id is present, delete it and
save (second component true); otherwise return without saving (second
component false). -/
def remove_job (db : DB) (job_id : String) : DB × Bool :=
  if (List.lookup job_id db).isSome then (eraseKey db job_id, true)
  else (db, false)

end JobTracker

namespace SlurmUtils

/-- Outcome of the embedded get_job_node polling loop: the resolved node (or
none), the number of scontrol status queries issued, and the number of sleeps
performed between queries. -/
structure GJNResult where
  node : Option String
  queries : Nat
  sleeps : Nat
  deriving DecidableEq

/-- One-iteration-at-a-time embedding of the polling loop of get_job_node in
src/common/slurm_utils.py.  The scontrol oracle maps the index of a status
query to either a subprocess failure or the parsed key-value attributes of the
scontrol show job output.  Fuel counts the iterations the wall-clock budget
allows.  A RUNNING state with a usable NodeList returns that node; a RUNNING
state with a missing, empty or (null) NodeList sleeps and retries; a state
that is neither PENDING nor CONFIGURING nor RUNNING (including a missing
JobState field) returns none at once; otherwise the loop sleeps and retries. -/
def get_job_node_go (scontrol : Nat → Except String (List (String × String))) :
    Nat → Nat → Nat → GJNResult
  | 0, q, s => ⟨none, q, s⟩
  | fuel + 1, q, s =>
    match scontrol q with
    | Except.error _ => ⟨none, q + 1, s⟩
    | Except.ok job_info =>
      if List.lookup "JobState" job_info = some "RUNNING" then
        match List.lookup "NodeList" job_info with
        | some node =>
          if node ≠ "" ∧ node ≠ "(null)" then ⟨some node, q + 1, s⟩
          else get_job_node_go scontrol fuel (q + 1) (s + 1)
        | none => get_job_node_go scontrol fuel (q + 1) (s + 1)
      else if List.lookup "JobState" job_info = some "PENDING" ∨
          List.lookup "JobState" job_info = some "CONFIGURING" then
        get_job_node_go scontrol fuel (q + 1) (s + 1)
      else ⟨none, q + 1, s⟩

/-- Embedding of get_job_node: the loop runs while the elapsed time is below
max_wait and each iteration ends with a sleep of check_interval, so the fuel
is the number of check_interval steps needed to reach max_wait. -/
def get_job_node (scontrol : Nat → Except String (List (String × String)))
    (max_wait check_interval : Nat) : GJNResult :=
  get_job_node_go scontrol ((max_wait + check_interval - 1) / check_interval) 0 0

end SlurmUtils

namespace OllamaMonitor

/-- Model of a requests response: status code and body text. -/
structure HttpResponse where
  statusCode : Nat
  text : String

/-- Embedding of response.raise_for_status(): raises on a 4xx or 5xx code. -/
def raise_for_status (r : HttpResponse) : Except String Unit :=
  if 400 ≤ r.statusCode then Except.error ("HTTP error " ++ toString r.statusCode)
  else Except.ok ()

/-- Helper for pySplit: walk the characters, cutting at whitespace and
dropping empty pieces. -/
def pySplitAux : List Char → List Char → List String
  | [], cur => if cur.isEmpty then [] else [String.mk cur.reverse]
  | ch :: rest, cur =>
    if ch.isWhitespace then
      if cur.isEmpty then pySplitAux rest []
      else String.mk cur.reverse :: pySplitAux rest []
    else pySplitAux rest (ch :: cur)

/-- Embedding of the Python str.split() with no argument: split on whitespace
runs and drop empty pieces. -/
def pySplit (s : String) : List String :=
  pySplitAux s.data []

/-- Helper for splitLines: cut the characters at newline characters. -/
def splitLinesAux : List Char → List Char → List String
  | [], cur => [String.mk cur.reverse]
  | ch :: rest, cur =>
    if ch = '\n' then String.mk cur.reverse :: splitLinesAux rest []
    else splitLinesAux rest (ch :: cur)

/-- Embedding of str.splitlines() as used on the metrics body (a trailing
empty piece is harmless here since the parsing loop skips empty lines). -/
def splitLines (s : String) : List String :=
  splitLinesAux s.data []

/-- Embedding of line.startswith with a hash-mark needle: true when the first
character is a hash mark. -/
def startsWithHash (line : String) : Bool :=
  match line.data with
  | [] => false
  | c :: _ => c = '#'

/-- Embedding of the parsing loop of OllamaMonitor.collect_service_metrics:
skip empty lines and comment lines starting with a hash mark, unpack the first
two whitespace-separated tokens of every other line (a Python ValueError if
there are fewer than two), convert the second to a float through the pyFloat
oracle, and assign into the metrics dict.  Any failure is an exception that
escapes the loop. -/
def parse_metrics (pyFloat : String → Except String ℚ) :
    List String → List (String × Value) → Except String (List (String × Value))
  | [], metrics => Except.ok metrics
  | line :: rest, metrics =>
    if line ≠ "" ∧ ¬ startsWithHash line then
      match pySplit line with
      | key :: value :: _ =>
        (match pyFloat value with
         | Except.ok q => parse_metrics pyFloat rest (setKey metrics key (Value.num q))
         | Except.error e => Except.error e)
      | _ => Except.error "not enough values to unpack"
    else parse_metrics pyFloat rest metrics

/-- The body of the try block of OllamaMonitor.collect_service_metrics in
src/monitoring/services/ollama_monitor.py: fetch the endpoint (the httpGet
oracle is the requests.get call, erroring on a raised connection exception),
raise for a bad status, then parse the body into a metrics dict. -/
def collect_attempt (pyFloat : String → Except String ℚ)
    (httpGet : Except String HttpResponse) : Except String (List (String × Value)) :=
  match httpGet with
  | Except.error e => Except.error e
  | Except.ok response =>
    match raise_for_status response with
    | Except.error e => Except.error e
    | Except.ok _ => parse_metrics pyFloat (splitLines response.text) []

/-- Embedding of OllamaMonitor.collect_service_metrics: the whole body sits in
a try block whose except clause returns a dict with a single error field
holding the exception message. -/
def collect_service_metrics (pyFloat : String → Except String ℚ)
    (httpGet : Except String HttpResponse) : List (String × Value) :=
  match collect_attempt pyFloat httpGet with
  | Except.ok metrics => metrics
  | Except.error e => [("error", Value.str e)]

end OllamaMonitor

namespace BaseMonitor

/-- One sample record appended per loop iteration by BaseMonitor.start: a
timestamp and the three metric sections, in the order the dict literal builds
them. -/
structure Sample where
  timestamp : String
  system : List (String × Value)
  gpu : List (String × Value)
  service : List (String × Value)

/-- Oracle for the psutil readings consumed by collect_system_metrics, indexed
by the sampling step. -/
structure SysEnv where
  cpu_percent : Nat → Value
  memory_percent : Nat → Value
  disk_io : Nat → Value
  net_io : Nat → Value

/-- Embedding of BaseMonitor.collect_system_metrics: a dict with the four
psutil-derived fields. -/
def collect_system_metrics (env : SysEnv) (step : Nat) : List (String × Value) :=
  [("cpu_usage", env.cpu_percent step),
   ("memory_usage", env.memory_percent step),
   ("disk_io", env.disk_io step),
   ("net_io", env.net_io step)]

/-- Embedding of BaseMonitor.collect_gpu_metrics: the nvidia-smi call either
yields the three numbers or raises, and the except clause returns an empty
dict. -/
def collect_gpu_metrics (nvidiaSmi : Nat → Except String (ℚ × ℚ × ℚ))
    (step : Nat) : List (String × Value) :=
  match nvidiaSmi step with
  | Except.ok (u, mu, mt) =>
    [("gpu_util", Value.num u), ("gpu_mem_used", Value.num mu),
     ("gpu_mem_total", Value.num mt)]
  | Except.error _ => []

/-- Outcome of a monitor run: the in-memory sample list at loop exit, the
contents written to the output file by save (none when save never ran), and
the exception escaping the loop, if any. -/
structure MonitorRun where
  data : List Sample
  saved : Option (List Sample)
  exc : Option String

/-- Embedding of the sampling loop of BaseMonitor.start: each iteration builds
the record dict by calling the system, gpu and service collectors in that
order — the loop body has no try block, so a collector exception escapes with
save never called — appends it and continues; when the duration budget (the
fuel) is exhausted the loop falls through to save, which persists the
accumulated list. -/
def monitor_loop (sysC gpuC svcC : Nat → Except String (List (String × Value)))
    (timestamp : Nat → String) : Nat → Nat → List Sample → MonitorRun
  | 0, _, acc => ⟨acc, some acc, none⟩
  | fuel + 1, step, acc =>
    match sysC step with
    | Except.error e => ⟨acc, none, some e⟩
    | Except.ok sys =>
      match gpuC step with
      | Except.error e => ⟨acc, none, some e⟩
      | Except.ok gpu =>
        match svcC step with
        | Except.error e => ⟨acc, none, some e⟩
        | Except.ok svc =>
          monitor_loop sysC gpuC svcC timestamp fuel (step + 1)
            (acc ++ [⟨timestamp step, sys, gpu, svc⟩])

/-- The sample sequence a run over the given fuel produces when every
collector returns normally: one sample per step, in step order. -/
def okRun (okS : Nat → Sample) : Nat → Nat → List Sample
  | 0, _ => []
  | fuel + 1, step => okS step :: okRun okS fuel (step + 1)

/-- Number of iterations of the while loop of BaseMonitor.start: it runs while
the elapsed time is below duration and every iteration ends with a sleep of
interval. -/
def numSamples (duration interval : Nat) : Nat :=
  (duration + interval - 1) / interval

/-- Embedding of BaseMonitor.start: run the sampling loop from an empty
accumulated list for the whole duration. -/
def start (sysC gpuC svcC : Nat → Except String (List (String × Value)))
    (timestamp : Nat → String) (duration interval : Nat) : MonitorRun :=
  monitor_loop sysC gpuC svcC timestamp (numSamples duration interval) 0 []

end BaseMonitor

namespace MonitorManager

/-- Embedding of the run_monitor closure of MonitorManager.start_monitor: it
wraps monitor.start() in a try block whose except clause only prints the
error, so the exception is absorbed and nothing further is persisted.  The
result is the persisted data (exactly what the run itself saved) and the
message the wrapper reports. -/
def run_monitor (run : BaseMonitor.MonitorRun) :
    Option (List BaseMonitor.Sample) × Option String :=
  (run.saved, run.exc)

/-- The node lookup at the top of MonitorManager.start_monitor: node starts as
None, and only when a job tracker is attached and holds a record for the job
id does node become the node field of that record. -/
def tracked_node (jobTracker : Option DB) (job_id : String) : Value :=
  match jobTracker with
  | none => Value.null
  | some db =>
    match JobTracker.get_job db job_id with
    | none => Value.null
    | some job_info =>
      match List.lookup "node" job_info with
      | none => Value.null
      | some v => v

/-- Outcome of MonitorManager.start_monitor: the monitor id handed back (none
when no task is created) and the number of get_job_node resolver calls the
launch performed.  The source body contains no call to get_job_node, so the
count is zero on every path. -/
structure StartMonitorOutcome where
  monitor_id : Option String
  resolver_calls : Nat
  deriving DecidableEq

/-- Embedding of MonitorManager.start_monitor: look the node up in the job
tracker; a falsy node fails the launch at once, an unavailable monitor class
fails it next, and otherwise the monitor thread is started and the generated
monitor id returned.  No path consults get_job_node. -/
def start_monitor (jobTracker : Option DB) (service_name job_id : String)
    (monitorAvailable : Bool) (timestamp : String) : StartMonitorOutcome :=
  let node := tracked_node jobTracker job_id
  if ¬ pythonTruthy node then ⟨none, 0⟩
  else if ¬ monitorAvailable then ⟨none, 0⟩
  else ⟨some ("monitor_" ++ service_name ++ "_" ++ job_id ++ "_" ++ timestamp), 0⟩

end MonitorManager

namespace ServiceManager

/-- Environment of one ServiceManager.start_service invocation: the parsed job
id of the sbatch submission (none on a failed submission or unparsable
output), the node produced by get_job_node, and the outcome of the configured
health check (none when the service recipe names no health check). -/
structure SSEnv where
  submit : Option String
  resolveNode : Option String
  healthCheck : Option Bool

/-- Observable steps of a start_service invocation, in execution order. -/
inductive Event where
  | addJob (job_id : String) (rec : Record)
  | resolveNode (job_id : String) (result : Option String)
  | updateJob (job_id : String) (kwargs : Record)
  | healthProbe (service_name : String) (passed : Bool)

/-- Result of start_service: the job database after the call, the returned
value, and the trace of registry and probe steps taken. -/
structure SSResult where
  db : DB
  returned : Option String
  trace : List Event

/-- Embedding of ServiceManager.start_service with a job tracker attached,
from src/deployment/service_manager.py: merge overrides onto the default
params, submit; on success add the job to the tracker (status running), then
resolve the node — an absent node returns the job id early, skipping the
health check and writing nothing further — then record the node and, when a
health check is configured, run it and write status healthy or unhealthy. -/
def start_service (env : SSEnv) (db : DB) (service_name : String)
    (defaults overrides : Record) (now : String) : SSResult :=
  let params := dictUpdate defaults overrides
  match env.submit with
  | none => ⟨db, none, []⟩
  | some job_id =>
    let rec0 := JobTracker.mkJobRecord job_id "service" service_name Value.null
      now (Value.dict params) Value.null
    let db1 := JobTracker.add_job db job_id "service" service_name Value.null
      now (Value.dict params) Value.null
    match env.resolveNode with
    | none => ⟨db1, some job_id, [Event.addJob job_id rec0, Event.resolveNode job_id none]⟩
    | some node =>
      let nodeKw : Record := [("node", Value.str node)]
      let db2 := (JobTracker.update_job db1 job_id nodeKw).1
      let trace2 := [Event.addJob job_id rec0, Event.resolveNode job_id (some node),
        Event.updateJob job_id nodeKw]
      match env.healthCheck with
      | none => ⟨db2, some job_id, trace2⟩
      | some passed =>
        let statusKw : Record :=
          [("status", Value.str (if passed then "healthy" else "unhealthy"))]
        ⟨(JobTracker.update_job db2 job_id statusKw).1, some job_id,
          trace2 ++ [Event.healthProbe service_name passed, Event.updateJob job_id statusKw]⟩

end ServiceManager

namespace PostgresHealthCheck

/-- Embedding of test_postgres in
src/deployment/health_checks/postgres_health_check.py.  The connect oracle is
the psycopg2.connect call and the fetchone oracle is the result row of the
SELECT 1 query, either of which may raise; both except clauses only print.
Every path of the Python function falls off the end without a return
statement, so the function returns None on success and on every failure. -/
def test_postgres (connect : Except String Unit)
    (fetchone : Except String (Option Int)) : Value :=
  match connect with
  | Except.error _ => Value.null
  | Except.ok _ =>
    match fetchone with
    | Except.error _ => Value.null
    | Except.ok _ => Value.null

end PostgresHealthCheck

/-- Looking up the assigned key after a dict assignment yields the assigned
value. -/
theorem lookup_setKey_self {α : Type} (l : List (String × α)) (k : String) (v : α) :
    List.lookup k (setKey l k v) = some v := by
  induction l with
  | nil => simp [setKey, List.lookup]
  | cons hd tl ih =>
    obtain ⟨k1, v1⟩ := hd
    by_cases h : k1 = k
    · subst h
      simp [setKey, List.lookup]
    · simp only [setKey, if_neg h, List.lookup]
      have hne : (k == k1) = false := by
        simp [beq_eq_false_iff_ne]
        exact fun hk => h hk.symm
      simp [hne, ih]

/-- Looking up any other key after a dict assignment is unchanged. -/
theorem lookup_setKey_ne {α : Type} (l : List (String × α)) (k : String) (v : α)
    (k2 : String) (h : k2 ≠ k) :
    List.lookup k2 (setKey l k v) = List.lookup k2 l := by
  induction l with
  | nil =>
    have : (k2 == k) = false := by simp [beq_eq_false_iff_ne, h]
    simp [setKey, List.lookup, this]
  | cons hd tl ih =>
    obtain ⟨k1, v1⟩ := hd
    by_cases hk : k1 = k
    · subst hk
      have h1 : (k2 == k1) = false := by simp [beq_eq_false_iff_ne, h]
      simp [setKey, List.lookup, h1]
    · simp only [setKey, if_neg hk, List.lookup]
      by_cases h2 : k2 = k1
      · subst h2; simp
      · have h3 : (k2 == k1) = false := by simp [beq_eq_false_iff_ne, h2]
        simp [h3, ih]

/-- A dict update with a single binding is a single assignment. -/
theorem dictUpdate_single {α : Type} (d : List (String × α)) (k : String) (v : α) :
    dictUpdate d [(k, v)] = setKey d k v := rfl

/-- Every binding of a dict after an assignment is the assigned one or was
already present. -/
theorem mem_setKey {α : Type} (l : List (String × α)) (k : String) (v : α)
    (kv : String × α) (h : kv ∈ setKey l k v) : kv = (k, v) ∨ kv ∈ l := by
  induction l with
  | nil =>
    simp [setKey] at h
    exact Or.inl h
  | cons hd tl ih =>
    obtain ⟨k1, v1⟩ := hd
    by_cases hk : k1 = k
    · subst hk
      simp [setKey] at h
      rcases h with h | h
      · exact Or.inl h
      · exact Or.inr (List.mem_cons_of_mem _ h)
    · simp only [setKey, if_neg hk, List.mem_cons] at h
      rcases h with h | h
      · exact Or.inr (List.mem_cons.2 (Or.inl h))
      · rcases ih h with h2 | h2
        · exact Or.inl h2
        · exact Or.inr (List.mem_cons_of_mem _ h2)

/-- The sample sequence of a fully successful run enumerates the steps in
order. -/
theorem okRun_eq_range_map (okS : Nat → BaseMonitor.Sample) :
    ∀ fuel step, BaseMonitor.okRun okS fuel step =
      (List.range fuel).map (fun j => okS (step + j)) := by
  intro fuel
  induction fuel with
  | zero => intro step; simp [BaseMonitor.okRun]
  | succ n ih =>
    intro step
    rw [BaseMonitor.okRun, ih (step + 1), List.range_succ_eq_map, List.map_cons,
      List.map_map]
    congr 1
    apply List.map_congr_left
    intro j _
    have : step + 1 + j = step + (j + 1) := by omega
    simp [Function.comp, this]

/-- When every collector returns normally, the sampling loop appends one
sample per step, finishes without an exception, and persists exactly the
accumulated sequence. -/
theorem monitor_loop_ok (sysF gpuF svcF : Nat → List (String × Value))
    (ts : Nat → String) :
    ∀ (fuel step : Nat) (acc : List BaseMonitor.Sample),
      BaseMonitor.monitor_loop (fun j => Except.ok (sysF j))
        (fun j => Except.ok (gpuF j)) (fun j => Except.ok (svcF j)) ts fuel step acc =
      ⟨acc ++ BaseMonitor.okRun (fun j => ⟨ts j, sysF j, gpuF j, svcF j⟩) fuel step,
       some (acc ++ BaseMonitor.okRun (fun j => ⟨ts j, sysF j, gpuF j, svcF j⟩) fuel step),
       none⟩ := by
  intro fuel
  induction fuel with
  | zero =>
    intro step acc
    simp [BaseMonitor.monitor_loop, BaseMonitor.okRun]
  | succ n ih =>
    intro step acc
    have h1 : BaseMonitor.monitor_loop (fun j => Except.ok (sysF j))
        (fun j => Except.ok (gpuF j)) (fun j => Except.ok (svcF j)) ts (n + 1) step acc =
        BaseMonitor.monitor_loop (fun j => Except.ok (sysF j))
          (fun j => Except.ok (gpuF j)) (fun j => Except.ok (svcF j)) ts n (step + 1)
          (acc ++ [⟨ts step, sysF step, gpuF step, svcF step⟩]) := rfl
    rw [h1, ih (step + 1) (acc ++
      [BaseMonitor.Sample.mk (ts step) (sysF step) (gpuF step) (svcF step)])]
    simp [BaseMonitor.okRun, List.append_assoc]

/-- A sampling loop that exits without an exception persisted exactly its
accumulated data. -/
theorem monitor_loop_exc_none_saved
    (sysC gpuC svcC : Nat → Except String (List (String × Value)))
    (ts : Nat → String) :
    ∀ (fuel step : Nat) (acc : List BaseMonitor.Sample),
      (BaseMonitor.monitor_loop sysC gpuC svcC ts fuel step acc).exc = none →
      (BaseMonitor.monitor_loop sysC gpuC svcC ts fuel step acc).saved =
        some (BaseMonitor.monitor_loop sysC gpuC svcC ts fuel step acc).data := by
  intro fuel
  induction fuel with
  | zero => intro step acc _; rfl
  | succ n ih =>
    intro step acc h
    rw [BaseMonitor.monitor_loop] at h ⊢
    cases hsys : sysC step with
    | error e => rw [hsys] at h; simp at h
    | ok sys =>
      rw [hsys] at h
      cases hgpu : gpuC step with
      | error e => rw [hgpu] at h; simp at h
      | ok gpu =>
        rw [hgpu] at h
        cases hsvc : svcC step with
        | error e => rw [hsvc] at h; simp at h
        | ok svc =>
          rw [hsvc] at h
          exact ih (step + 1) (acc ++ [⟨ts step, sys, gpu, svc⟩]) h

/-- A sampling loop an exception escapes from never persisted anything. -/
theorem monitor_loop_exc_some_not_saved
    (sysC gpuC svcC : Nat → Except String (List (String × Value)))
    (ts : Nat → String) :
    ∀ (fuel step : Nat) (acc : List BaseMonitor.Sample) (e : String),
      (BaseMonitor.monitor_loop sysC gpuC svcC ts fuel step acc).exc = some e →
      (BaseMonitor.monitor_loop sysC gpuC svcC ts fuel step acc).saved = none := by
  intro fuel
  induction fuel with
  | zero => intro step acc e h; simp [BaseMonitor.monitor_loop] at h
  | succ n ih =>
    intro step acc e h
    rw [BaseMonitor.monitor_loop] at h ⊢
    cases hsys : sysC step with
    | error e2 => rfl
    | ok sys =>
      rw [hsys] at h
      cases hgpu : gpuC step with
      | error e2 => rfl
      | ok gpu =>
        rw [hgpu] at h
        cases hsvc : svcC step with
        | error e2 => rfl
        | ok svc =>
          rw [hsvc] at h
          exact ih (step + 1) (acc ++ [⟨ts step, sys, gpu, svc⟩]) e h

/-- Every value the ollama metrics parser stores is numeric. -/
theorem parse_metrics_num (pf : String → Except String ℚ) :
    ∀ (lines : List String) (acc m : List (String × Value)),
      OllamaMonitor.parse_metrics pf lines acc = Except.ok m →
      (∀ kv ∈ acc, ∃ q : ℚ, kv.2 = Value.num q) →
      ∀ kv ∈ m, ∃ q : ℚ, kv.2 = Value.num q := by
  intro lines
  induction lines with
  | nil =>
    intro acc m h hacc
    rw [OllamaMonitor.parse_metrics] at h
    injection h with h2
    exact h2 ▸ hacc
  | cons line rest ih =>
    intro acc m h hacc
    rw [OllamaMonitor.parse_metrics] at h
    by_cases hline : line ≠ "" ∧ ¬ OllamaMonitor.startsWithHash line
    · rw [if_pos hline] at h
      cases hsplit : OllamaMonitor.pySplit line with
      | nil => rw [hsplit] at h; simp at h
      | cons key tl =>
        rw [hsplit] at h
        cases tl with
        | nil => simp at h
        | cons value rest2 =>
          have h2 : (match pf value with
            | Except.ok q =>
              OllamaMonitor.parse_metrics pf rest (setKey acc key (Value.num q))
            | Except.error e => Except.error e) = Except.ok m := h
          cases hpf : pf value with
          | error e => rw [hpf] at h2; simp at h2
          | ok q =>
            rw [hpf] at h2
            refine ih _ m h2 ?_
            intro kv hkv
            rcases mem_setKey acc key (Value.num q) kv hkv with h3 | h3
            · exact ⟨q, by rw [h3]⟩
            · exact hacc kv h3
    · rw [if_neg hline] at h
      exact ih acc m h hacc

/-- C5: the readiness probe contract says probe(service_label, target) returns
a definite boolean, true on a semantically valid answer.  The postgres probe
test_postgres contradicts it: no path of the function has a return statement,
so it returns None on every input — even when the connection succeeds and
SELECT 1 comes back with the expected row — and None is falsy, so
start_service marks a perfectly healthy postgres service unhealthy.  The
never-raises half of the contract does hold: the result is always the same
definite (non-exceptional) value. -/
theorem C5_postgres_probe_returns_none :
    (∀ (connect : Except String Unit) (fetchone : Except String (Option Int)),
      PostgresHealthCheck.test_postgres connect fetchone = Value.null) ∧
    pythonTruthy
      (PostgresHealthCheck.test_postgres (Except.ok ()) (Except.ok (some 1))) = false := by
  constructor
  · intro connect fetchone
    cases connect with
    | error e => rfl
    | ok u =>
      cases fetchone with
      | error e => rfl
      | ok r => rfl
  · rfl

/-- C7: a job whose first status query reports a state that is neither
pending/configuring nor running makes the node resolver return absent after
exactly one query, with no sleep and no further polling iteration. -/
theorem C7_terminal_state_single_query
    (scontrol : Nat → Except String (List (String × String)))
    (max_wait check_interval : Nat) (info : List (String × String)) (st : String)
    (hmw : 0 < max_wait) (hci : 0 < check_interval)
    (hq : scontrol 0 = Except.ok info)
    (hstate : List.lookup "JobState" info = some st)
    (h1 : st ≠ "RUNNING") (h2 : st ≠ "PENDING") (h3 : st ≠ "CONFIGURING") :
    SlurmUtils.get_job_node scontrol max_wait check_interval = ⟨none, 1, 0⟩ := by
  unfold SlurmUtils.get_job_node
  obtain ⟨f, hf⟩ : ∃ f, (max_wait + check_interval - 1) / check_interval = f + 1 := by
    have hpos : 0 < (max_wait + check_interval - 1) / check_interval := by
      apply Nat.div_pos <;> omega
    exact ⟨(max_wait + check_interval - 1) / check_interval - 1, by omega⟩
  rw [hf, SlurmUtils.get_job_node_go, hq]
  simp [hstate, h1, h2, h3]

/-- C7 witness: a gateway reporting FAILED on the first query. -/
theorem C7_terminal_state_single_query_witness :
    SlurmUtils.get_job_node (fun _ => Except.ok [("JobState", "FAILED")]) 300 5 =
      ⟨none, 1, 0⟩ :=
  C7_terminal_state_single_query (fun _ => Except.ok [("JobState", "FAILED")]) 300 5
    [("JobState", "FAILED")] "FAILED" (by omega) (by omega) rfl rfl
    (by decide) (by decide) (by decide)

/-- C8: putting a record, updating its status to healthy, then getting it back
returns a record whose status is healthy and whose every other field is the
field of the originally stored record. -/
theorem C8_put_update_get_roundtrip (db : DB) (jid jt sn : String) (node : Value)
    (now : String) (config parent : Value) :
    ∃ rec2 : Record,
      JobTracker.get_job
        ((JobTracker.update_job
          (JobTracker.add_job db jid jt sn node now config parent)
          jid [("status", Value.str "healthy")]).1) jid = some rec2 ∧
      List.lookup "status" rec2 = some (Value.str "healthy") ∧
      ∀ k : String, k ≠ "status" →
        List.lookup k rec2 =
          List.lookup k (JobTracker.mkJobRecord jid jt sn node now config parent) := by
  refine ⟨setKey (JobTracker.mkJobRecord jid jt sn node now config parent) "status"
    (Value.str "healthy"), ?_, ?_, ?_⟩
  · unfold JobTracker.get_job JobTracker.update_job JobTracker.add_job
    rw [lookup_setKey_self]
    simp only []
    rw [dictUpdate_single, lookup_setKey_self]
  · exact lookup_setKey_self _ _ _
  · intro k hk
    exact lookup_setKey_ne _ _ _ k hk

/-- C8 witness: a concrete record round-trips with only its status changed. -/
theorem C8_put_update_get_roundtrip_witness :
    ∃ rec2 : Record,
      JobTracker.get_job
        ((JobTracker.update_job
          (JobTracker.add_job [] "123" "service" "ollama" Value.null "T0"
            (Value.dict [("OLLAMA_MODEL", Value.str "llama2")]) Value.null)
          "123" [("status", Value.str "healthy")]).1) "123" = some rec2 ∧
      List.lookup "status" rec2 = some (Value.str "healthy") ∧
      List.lookup "node" rec2 =
        List.lookup "node" (JobTracker.mkJobRecord "123" "service" "ollama"
          Value.null "T0" (Value.dict [("OLLAMA_MODEL", Value.str "llama2")]) Value.null) := by
  obtain ⟨rec2, hget, hstatus, hrest⟩ :=
    C8_put_update_get_roundtrip [] "123" "service" "ollama" Value.null "T0"
      (Value.dict [("OLLAMA_MODEL", Value.str "llama2")]) Value.null
  exact ⟨rec2, hget, hstatus, hrest "node" (by decide)⟩

/-- C9: removing a job id that is not in the registry returns normally, leaves
the store unchanged and does not rewrite the backing file (no save). -/
theorem C9_remove_missing_noop (db : DB) (jid : String)
    (h : List.lookup jid db = none) :
    JobTracker.remove_job db jid = (db, false) := by
  simp [JobTracker.remove_job, h]

/-- C9 witness: removing an unknown id from a nonempty store is a no-op. -/
theorem C9_remove_missing_noop_witness :
    JobTracker.remove_job
      [("101", JobTracker.mkJobRecord "101" "service" "ollama" Value.null "T0"
        Value.null Value.null)] "999" =
      ([("101", JobTracker.mkJobRecord "101" "service" "ollama" Value.null "T0"
        Value.null Value.null)], false) :=
  C9_remove_missing_noop _ "999" rfl

/-- C10: the ollama service-metrics collector is total: whatever the fetch
and float-parsing oracles do, it returns a plain mapping — the parsed
name-to-number mapping when the whole attempt succeeds, and a mapping holding
a single error field with the exception message on any failure. -/
theorem C10_ollama_collect_total (pf : String → Except String ℚ)
    (hg : Except String OllamaMonitor.HttpResponse) :
    (∀ e, OllamaMonitor.collect_attempt pf hg = Except.error e →
      OllamaMonitor.collect_service_metrics pf hg = [("error", Value.str e)]) ∧
    (∀ metrics, OllamaMonitor.collect_attempt pf hg = Except.ok metrics →
      OllamaMonitor.collect_service_metrics pf hg = metrics ∧
      ∀ kv ∈ metrics, ∃ q : ℚ, kv.2 = Value.num q) := by
  constructor
  · intro e he
    unfold OllamaMonitor.collect_service_metrics
    rw [he]
  · intro metrics hm
    constructor
    · unfold OllamaMonitor.collect_service_metrics
      rw [hm]
    · unfold OllamaMonitor.collect_attempt at hm
      cases hhg : hg with
      | error e => rw [hhg] at hm; simp at hm
      | ok resp =>
        rw [hhg] at hm
        have hm2 : (match OllamaMonitor.raise_for_status resp with
          | Except.error e => Except.error e
          | Except.ok _ =>
            OllamaMonitor.parse_metrics pf (OllamaMonitor.splitLines resp.text) []) =
            Except.ok metrics := hm
        cases hrs : OllamaMonitor.raise_for_status resp with
        | error e => rw [hrs] at hm2; simp at hm2
        | ok u =>
          rw [hrs] at hm2
          refine parse_metrics_num pf (OllamaMonitor.splitLines resp.text) [] metrics hm2 ?_
          intro kv hkv
          simp at hkv

/-- C10 witness: a connection failure yields the error mapping; a well-formed
body yields the parsed numeric mapping. -/
theorem C10_ollama_collect_total_witness :
    OllamaMonitor.collect_service_metrics (fun _ => Except.ok 2)
      (Except.error "connection refused") = [("error", Value.str "connection refused")] ∧
    OllamaMonitor.collect_service_metrics (fun _ => Except.ok 2)
      (Except.ok ⟨200, "latency 2"⟩) = [("latency", Value.num 2)] ∧
    ∀ kv ∈ [(("latency" : String), Value.num 2)], ∃ q : ℚ, kv.2 = Value.num q := by
  refine ⟨?_, ?_⟩
  · exact (C10_ollama_collect_total (fun _ => Except.ok 2)
      (Except.error "connection refused")).1 "connection refused" rfl
  · have h := (C10_ollama_collect_total (fun _ => Except.ok 2)
      (Except.ok ⟨200, "latency 2"⟩)).2 [("latency", Value.num 2)] rfl
    exact ⟨h.1, h.2⟩

/-- C1 counterexample: a successful submission persists a record whose status
at creation is the string running, not submitted — shown at a concrete
start_service run whose submission parses to job id 123 and whose node never
resolves. -/
theorem C1_counterexample :
    (ServiceManager.start_service ⟨some "123", none, none⟩ [] "ollama" [] [] "T0").trace =
      [ServiceManager.Event.addJob "123"
        (JobTracker.mkJobRecord "123" "service" "ollama" Value.null "T0"
          (Value.dict []) Value.null),
       ServiceManager.Event.resolveNode "123" none] ∧
    List.lookup "status"
      (JobTracker.mkJobRecord "123" "service" "ollama" Value.null "T0"
        (Value.dict []) Value.null) = some (Value.str "running") ∧
    Value.str "running" ≠ Value.str "submitted" := by
  refine ⟨rfl, rfl, fun h => ?_⟩
  injection h with h2
  exact absurd h2 (by decide)

/-- C1 amended: for every successful submission in start_service, the very
first action is persisting a new JobRecord whose status field is the string
running at creation time, before any node resolution or readiness probing. -/
theorem C1_status_running_at_creation (env : ServiceManager.SSEnv) (db : DB)
    (sname : String) (defaults overrides : Record) (now jid : String)
    (h : env.submit = some jid) :
    ∃ rec : Record,
      (ServiceManager.start_service env db sname defaults overrides now).trace.head? =
        some (ServiceManager.Event.addJob jid rec) ∧
      List.lookup "status" rec = some (Value.str "running") ∧
      JobTracker.get_job
        (JobTracker.add_job db jid "service" sname Value.null now
          (Value.dict (dictUpdate defaults overrides)) Value.null) jid = some rec := by
  refine ⟨JobTracker.mkJobRecord jid "service" sname Value.null now
    (Value.dict (dictUpdate defaults overrides)) Value.null, ?_, rfl, ?_⟩
  · unfold ServiceManager.start_service
    rw [h]
    cases hres : env.resolveNode with
    | none => rfl
    | some node =>
      cases hhc : env.healthCheck with
      | none => rfl
      | some passed => rfl
  · unfold JobTracker.get_job JobTracker.add_job
    exact lookup_setKey_self db jid _

/-- C1 witness: the amended property at a concrete fully successful start. -/
theorem C1_status_running_at_creation_witness :
    ∃ rec : Record,
      (ServiceManager.start_service ⟨some "123", some "node07", some true⟩ []
        "ollama" [] [] "T0").trace.head? =
        some (ServiceManager.Event.addJob "123" rec) ∧
      List.lookup "status" rec = some (Value.str "running") ∧
      JobTracker.get_job
        (JobTracker.add_job [] "123" "service" "ollama" Value.null "T0"
          (Value.dict (dictUpdate [] [])) Value.null) "123" = some rec :=
  C1_status_running_at_creation ⟨some "123", some "node07", some true⟩ [] "ollama"
    [] [] "T0" "123" rfl

/-- C4 counterexample: a measurement launch whose registry record has no node
fails at once with no task created and zero node-resolver calls — there is no
fallback resolution, refuting the claimed fresh Node Resolver call. -/
theorem C4_counterexample :
    MonitorManager.start_monitor
      (some (JobTracker.add_job [] "123" "service" "ollama" Value.null "T0"
        Value.null Value.null))
      "ollama" "123" true "TS" = ⟨none, 0⟩ := rfl

/-- C4 amended: whenever the node recorded for the source job id is absent or
falsy, start_monitor fails immediately — no monitor task is created and the
node resolver is never consulted. -/
theorem C4_no_resolver_fallback (jobTracker : Option DB) (sname jid : String)
    (avail : Bool) (ts : String)
    (h : pythonTruthy (MonitorManager.tracked_node jobTracker jid) = false) :
    MonitorManager.start_monitor jobTracker sname jid avail ts = ⟨none, 0⟩ := by
  simp [MonitorManager.start_monitor, h]

/-- C4 witness: the amended property at a tracked job with a null node. -/
theorem C4_no_resolver_fallback_witness :
    MonitorManager.start_monitor
      (some (JobTracker.add_job [] "77" "service" "postgres" Value.null "T0"
        Value.null Value.null))
      "postgres" "77" true "TS" = ⟨none, 0⟩ :=
  C4_no_resolver_fallback _ "postgres" "77" true "TS" rfl

/-- C6 counterexample: when the node resolver returns absent, start_service
returns early with the creation-time record untouched — its status is still
the string running, which is not a failed-equivalent status, and the trace
shows no status write at all. -/
theorem C6_counterexample :
    (ServiceManager.start_service ⟨some "123", none, some true⟩ [] "postgres"
      [] [] "T0").trace =
      [ServiceManager.Event.addJob "123"
        (JobTracker.mkJobRecord "123" "service" "postgres" Value.null "T0"
          (Value.dict []) Value.null),
       ServiceManager.Event.resolveNode "123" none] ∧
    JobTracker.get_job
      (ServiceManager.start_service ⟨some "123", none, some true⟩ [] "postgres"
        [] [] "T0").db "123" =
      some (JobTracker.mkJobRecord "123" "service" "postgres" Value.null "T0"
        (Value.dict []) Value.null) ∧
    List.lookup "status"
      (JobTracker.mkJobRecord "123" "service" "postgres" Value.null "T0"
        (Value.dict []) Value.null) = some (Value.str "running") ∧
    Value.str "running" ≠ Value.str "failed" := by
  refine ⟨rfl, rfl, rfl, fun h => ?_⟩
  injection h with h2
  exact absurd h2 (by decide)

/-- C6 amended: on an absent resolved target, start_service returns the job id
early, performing no readiness probe and no registry write beyond the creation
itself: the trace is exactly the creation and the failed resolution, and the
persisted record keeps its creation status running — no failed-equivalent
status is recorded. -/
theorem C6_unreachable_early_return (env : ServiceManager.SSEnv) (db : DB)
    (sname : String) (defaults overrides : Record) (now jid : String)
    (hsub : env.submit = some jid) (hres : env.resolveNode = none) :
    ServiceManager.start_service env db sname defaults overrides now =
      ⟨JobTracker.add_job db jid "service" sname Value.null now
          (Value.dict (dictUpdate defaults overrides)) Value.null,
        some jid,
        [ServiceManager.Event.addJob jid
          (JobTracker.mkJobRecord jid "service" sname Value.null now
            (Value.dict (dictUpdate defaults overrides)) Value.null),
         ServiceManager.Event.resolveNode jid none]⟩ ∧
    JobTracker.get_job
      (JobTracker.add_job db jid "service" sname Value.null now
        (Value.dict (dictUpdate defaults overrides)) Value.null) jid =
      some (JobTracker.mkJobRecord jid "service" sname Value.null now
        (Value.dict (dictUpdate defaults overrides)) Value.null) ∧
    List.lookup "status"
      (JobTracker.mkJobRecord jid "service" sname Value.null now
        (Value.dict (dictUpdate defaults overrides)) Value.null) =
      some (Value.str "running") := by
  refine ⟨?_, ?_, rfl⟩
  · unfold ServiceManager.start_service
    rw [hsub, hres]
  · unfold JobTracker.get_job JobTracker.add_job
    exact lookup_setKey_self db jid _

/-- C6 witness: the amended property at a concrete unresolvable start. -/
theorem C6_unreachable_early_return_witness :
    ServiceManager.start_service ⟨some "55", none, some false⟩ [] "chroma"
      [] [] "T1" =
      ⟨JobTracker.add_job [] "55" "service" "chroma" Value.null "T1"
          (Value.dict (dictUpdate [] [])) Value.null,
        some "55",
        [ServiceManager.Event.addJob "55"
          (JobTracker.mkJobRecord "55" "service" "chroma" Value.null "T1"
            (Value.dict (dictUpdate [] [])) Value.null),
         ServiceManager.Event.resolveNode "55" none]⟩ ∧
    JobTracker.get_job
      (JobTracker.add_job [] "55" "service" "chroma" Value.null "T1"
        (Value.dict (dictUpdate [] [])) Value.null) "55" =
      some (JobTracker.mkJobRecord "55" "service" "chroma" Value.null "T1"
        (Value.dict (dictUpdate [] [])) Value.null) ∧
    List.lookup "status"
      (JobTracker.mkJobRecord "55" "service" "chroma" Value.null "T1"
        (Value.dict (dictUpdate [] [])) Value.null) =
      some (Value.str "running") :=
  C6_unreachable_early_return ⟨some "55", none, some false⟩ [] "chroma" [] []
    "T1" "55" rfl rfl

/-- C2 counterexample: the sampling loop of BaseMonitor.start has no try
block, so an exception raised during the system-metrics collection of the
second sample propagates out of the loop and the run stops short of its full
length of three samples; and a failing gpu collection is recorded as an empty
section carrying no error field.  This refutes the claim that any exception
raised during a single sample's collection is caught, recorded as a
per-category error field, and never propagated out of the sampling loop. -/
theorem C2_counterexample :
    (BaseMonitor.start
      (fun j => if j = 0 then Except.ok [("cpu_usage", Value.num 2)]
        else Except.error "disk_io crash")
      (fun _ => Except.ok []) (fun _ => Except.ok []) (fun _ => "T2") 6 2).exc =
      some "disk_io crash" ∧
    (BaseMonitor.start
      (fun j => if j = 0 then Except.ok [("cpu_usage", Value.num 2)]
        else Except.error "disk_io crash")
      (fun _ => Except.ok []) (fun _ => Except.ok []) (fun _ => "T2") 6 2).data.length = 1 ∧
    BaseMonitor.numSamples 6 2 = 3 ∧
    List.lookup "error"
      (BaseMonitor.collect_gpu_metrics (fun _ => Except.error "no gpu") 0) = none :=
  ⟨rfl, rfl, rfl, rfl⟩

/-- C2 amended: in a monitor run whose system and gpu collections return
normally, an exception raised inside the ollama service-metrics fetch is
caught and recorded as an error field in that sample's service section and
never propagates, so a run whose fetch throws at every sample still produces
the full-length sample sequence, persisted whole, with a present, valid
system section in every sample. -/
theorem C2_throwing_service_collector (env : BaseMonitor.SysEnv)
    (nvidiaSmi : Nat → Except String (ℚ × ℚ × ℚ))
    (pf : String → Except String ℚ) (msg : Nat → String) (ts : Nat → String)
    (duration interval : Nat) :
    BaseMonitor.start
      (fun j => Except.ok (BaseMonitor.collect_system_metrics env j))
      (fun j => Except.ok (BaseMonitor.collect_gpu_metrics nvidiaSmi j))
      (fun j => Except.ok
        (OllamaMonitor.collect_service_metrics pf (Except.error (msg j))))
      ts duration interval =
    ⟨(List.range (BaseMonitor.numSamples duration interval)).map
        (fun j => ⟨ts j, BaseMonitor.collect_system_metrics env j,
          BaseMonitor.collect_gpu_metrics nvidiaSmi j,
          [("error", Value.str (msg j))]⟩),
      some ((List.range (BaseMonitor.numSamples duration interval)).map
        (fun j => ⟨ts j, BaseMonitor.collect_system_metrics env j,
          BaseMonitor.collect_gpu_metrics nvidiaSmi j,
          [("error", Value.str (msg j))]⟩)),
      none⟩ := by
  unfold BaseMonitor.start
  rw [monitor_loop_ok (fun j => BaseMonitor.collect_system_metrics env j)
    (fun j => BaseMonitor.collect_gpu_metrics nvidiaSmi j)
    (fun j => OllamaMonitor.collect_service_metrics pf (Except.error (msg j))) ts
    (BaseMonitor.numSamples duration interval) 0 []]
  rw [okRun_eq_range_map]
  simp only [List.nil_append, Nat.zero_add]
  have hsvc : ∀ j, OllamaMonitor.collect_service_metrics pf (Except.error (msg j)) =
      [("error", Value.str (msg j))] := fun j => rfl
  simp only [hsvc]

/-- C3 counterexample: a monitor run whose system-metrics collection throws at
the second sample exits its loop by exception with one accumulated sample, yet
nothing is persisted — and the surrounding thread wrapper absorbs the
exception without persisting either, so the accumulated sample is lost,
refuting persistence on failing exit. -/
theorem C3_counterexample :
    (BaseMonitor.start
      (fun j => if j = 0 then Except.ok [("cpu_usage", Value.num 1)]
        else Except.error "psutil failure")
      (fun _ => Except.ok []) (fun _ => Except.ok []) (fun _ => "T") 4 2).data.length = 1 ∧
    (BaseMonitor.start
      (fun j => if j = 0 then Except.ok [("cpu_usage", Value.num 1)]
        else Except.error "psutil failure")
      (fun _ => Except.ok []) (fun _ => Except.ok []) (fun _ => "T") 4 2).saved = none ∧
    MonitorManager.run_monitor
      (BaseMonitor.start
        (fun j => if j = 0 then Except.ok [("cpu_usage", Value.num 1)]
          else Except.error "psutil failure")
        (fun _ => Except.ok []) (fun _ => Except.ok []) (fun _ => "T") 4 2) =
      (none, some "psutil failure") :=
  ⟨rfl, rfl, rfl⟩

/-- C3 amended: the samples accumulated by a monitor run are persisted exactly
when the sampling loop exits normally; when an exception escapes the loop the
surrounding thread wrapper catches and reports it, but the accumulated
samples are not persisted. -/
theorem C3_save_only_on_normal_exit
    (sysC gpuC svcC : Nat → Except String (List (String × Value)))
    (ts : Nat → String) (duration interval : Nat) :
    ((BaseMonitor.start sysC gpuC svcC ts duration interval).exc = none →
      (BaseMonitor.start sysC gpuC svcC ts duration interval).saved =
        some (BaseMonitor.start sysC gpuC svcC ts duration interval).data) ∧
    (∀ e, (BaseMonitor.start sysC gpuC svcC ts duration interval).exc = some e →
      (BaseMonitor.start sysC gpuC svcC ts duration interval).saved = none ∧
      MonitorManager.run_monitor (BaseMonitor.start sysC gpuC svcC ts duration interval) =
        (none, some e)) := by
  constructor
  · exact monitor_loop_exc_none_saved sysC gpuC svcC ts
      (BaseMonitor.numSamples duration interval) 0 []
  · intro e he
    have hs : (BaseMonitor.start sysC gpuC svcC ts duration interval).saved = none :=
      monitor_loop_exc_some_not_saved sysC gpuC svcC ts
        (BaseMonitor.numSamples duration interval) 0 [] e he
    refine ⟨hs, ?_⟩
    unfold MonitorManager.run_monitor
    rw [hs, he]

/-- C3 witness: the amended property at a run that completes normally and at a
run whose collector throws at the second sample. -/
theorem C3_save_only_on_normal_exit_witness :
    (BaseMonitor.start (fun _ => Except.ok []) (fun _ => Except.ok [])
      (fun _ => Except.ok []) (fun _ => "T") 4 2).saved =
      some (BaseMonitor.start (fun _ => Except.ok []) (fun _ => Except.ok [])
        (fun _ => Except.ok []) (fun _ => "T") 4 2).data ∧
    ((BaseMonitor.start
      (fun j => if j = 0 then Except.ok [] else Except.error "boom")
      (fun _ => Except.ok []) (fun _ => Except.ok []) (fun _ => "T") 4 2).saved = none ∧
     MonitorManager.run_monitor
       (BaseMonitor.start
         (fun j => if j = 0 then Except.ok [] else Except.error "boom")
         (fun _ => Except.ok []) (fun _ => Except.ok []) (fun _ => "T") 4 2) =
       (none, some "boom")) :=
  ⟨(C3_save_only_on_normal_exit (fun _ => Except.ok []) (fun _ => Except.ok [])
      (fun _ => Except.ok []) (fun _ => "T") 4 2).1 rfl,
   (C3_save_only_on_normal_exit
      (fun j => if j = 0 then Except.ok [] else Except.error "boom")
      (fun _ => Except.ok []) (fun _ => Except.ok []) (fun _ => "T") 4 2).2 "boom" rfl⟩

end AIF
